import Mathlib

/-!
Verification of the Owens Valley Paiute morphosyntactic synthesis engine
(`yaduha_ovp`): vocabulary lookups, feature-model functions, consonant
mutation, and the two clause renderers, embedded shallowly.  Python
exceptions (KeyError, ValueError, IndexError) are modelled by `Option`:
a function returns `none` exactly where the Python raises.
-/

namespace Yaduha

/-- Noun vocabulary, from `vocab.py` `NOUNS` (english lemma, target stem). -/
def NOUNS : List (String × String) :=
  [ ("coyote", "isha'"), ("vulture", "wiho"), ("dog", "ishapugu"),
    ("cat", "kidi'"), ("horse", "pugu"), ("rice", "wai"),
    ("pinenuts", "tüba"), ("corn", "maishibü"), ("water", "paya"),
    ("river", "payahuupü"), ("chair", "katünu"), ("mountain", "toyabi"),
    ("food", "tuunapi"), ("tree", "pasohobü"), ("house", "nobi"),
    ("wickiup", "toni"), ("cup", "apo"), ("wood", "küna"),
    ("rock", "tübbi"), ("cottontail", "tabuutsi'"), ("jackrabbit", "kamü"),
    ("apple", "aaponu'"), ("weasle", "tüsüga"), ("lizard", "mukita"),
    ("mosquito", "wo'ada"), ("bird_snake", "wükada"), ("worm", "wo'abi"),
    ("squirrel", "aingwü"), ("bird", "tsiipa"), ("earth", "tüwoobü"),
    ("coffee", "koopi'"), ("bear", "pahabichi"), ("fish", "pagwi"),
    ("tail", "kwadzi"), ("raccoon", "padaka'i"), ("chipmunk", "taba'ya"),
    ("knife", "wihi") ]

/-- Transitive verb vocabulary, from `vocab.py` `TRANSITIVE_VERBS`. -/
def TRANSITIVE_VERBS : List (String × String) :=
  [ ("eat", "tüka"), ("see", "puni"), ("drink", "hibi"),
    ("hear", "naka"), ("smell", "kwana"), ("hit", "kwati"),
    ("talk_to", "yadohi"), ("chase", "naki"), ("climb", "tsibui"),
    ("cook", "sawa"), ("read", "nia"), ("write", "mui"),
    ("visit", "nobini"), ("find", "tama'i") ]

/-- Intransitive verb vocabulary, from `vocab.py` `INTRANSITIVE_VERBS`. -/
def INTRANSITIVE_VERBS : List (String × String) :=
  [ ("sit", "katü"), ("sleep", "üwi"), ("sneeze", "kwisha'i"),
    ("run", "poyoha"), ("go", "mia"), ("walk", "hukaw̃ia"),
    ("stand", "wünü"), ("lie_down", "habi"), ("talk", "yadoha"),
    ("fall", "kwatsa'i"), ("work", "waakü"), ("smile", "wükihaa"),
    ("sing", "hubiadu"), ("laugh", "nishua'i"), ("climb", "tsibui"),
    ("play", "tübinohi"), ("fly", "yotsi"), ("jump", "yotsi"),
    ("dance", "nüga"), ("swim", "pahabi"), ("read", "tünia"),
    ("write", "tümui"), ("chirp", "tsiipe'i") ]

/-- `NOUN_LOOKUP` dict access: english lemma to target stem
(keys are unique in the list, so first-match lookup equals the dict). -/
def NOUN_LOOKUP (l : String) : Option String := NOUNS.lookup l

/-- `TRANSITIVE_VERB_LOOKUP` dict access. -/
def TRANSITIVE_VERB_LOOKUP (l : String) : Option String := TRANSITIVE_VERBS.lookup l

/-- `INTRANSITIVE_VERB_LOOKUP` dict access. -/
def INTRANSITIVE_VERB_LOOKUP (l : String) : Option String := INTRANSITIVE_VERBS.lookup l

/-- `get_noun_target`: `NOUN_LOOKUP[lemma].target`; `none` is the KeyError. -/
def get_noun_target (l : String) : Option String := NOUN_LOOKUP l

/-- `get_transitive_verb_target`. -/
def get_transitive_verb_target (l : String) : Option String := TRANSITIVE_VERB_LOOKUP l

/-- `get_intransitive_verb_target`. -/
def get_intransitive_verb_target (l : String) : Option String := INTRANSITIVE_VERB_LOOKUP l

/-- `get_verb_target`: transitive collection first, then intransitive. -/
def get_verb_target (l : String) : Option String :=
  match TRANSITIVE_VERB_LOOKUP l with
  | some t => some t
  | none => INTRANSITIVE_VERB_LOOKUP l

/-- `LENIS_MAP`: fortis first letters to their lenis replacement strings.
In the source, the value for m is the two-codepoint string w plus
U+0303 combining tilde. -/
def LENIS_MAP (c : Char) : Option String :=
  if c = 'p' then some "b"
  else if c = 't' then some "d"
  else if c = 'k' then some "g"
  else if c = 's' then some "z"
  else if c = 'm' then some "w̃"
  else none

/-- `to_lenis`: `word[0]` raises IndexError on the empty string (`none`);
otherwise replace the first letter through `LENIS_MAP` when it is a key,
keeping `word[1:]`, else return the word unchanged. -/
def to_lenis (word : String) : Option String :=
  match word.data with
  | [] => none
  | c :: rest =>
    match LENIS_MAP c with
    | some l => some (l ++ String.mk rest)
    | none => some word

/-- Grammatical proximity enumeration. -/
inductive Proximity
  | proximal
  | distal
deriving DecidableEq, Fintype

/-- `Proximity.get_object_suffix`. -/
def Proximity.get_object_suffix (p : Proximity) (does_end_in_glottal : Bool) : String :=
  if p = Proximity.proximal then
    if does_end_in_glottal then "eika" else "neika"
  else
    if does_end_in_glottal then "uka" else "noka"

/-- `Proximity.get_subject_suffix`. -/
def Proximity.get_subject_suffix (p : Proximity) : String :=
  if p = Proximity.proximal then "ii" else "uu"

/-- Grammatical person enumeration. -/
inductive Person
  | first
  | second
  | third
deriving DecidableEq, Fintype

/-- Grammatical plurality enumeration. -/
inductive Plurality
  | singular
  | dual
  | plural
deriving DecidableEq, Fintype

/-- Grammatical inclusivity enumeration. -/
inductive Inclusivity
  | inclusive
  | exclusive
deriving DecidableEq, Fintype

/-- Tense-aspect enumeration. -/
inductive TenseAspect
  | past_simple
  | past_continuous
  | present_perfect
  | present_simple
  | present_continuous
  | future_simple
deriving DecidableEq, Fintype

/-- `TenseAspect.get_suffix`: the if/elif chain of the source; the final
`none` is the trailing `raise ValueError`. -/
def TenseAspect.get_suffix (t : TenseAspect) : Option String :=
  if t = TenseAspect.past_simple then some "ku"
  else if t = TenseAspect.past_continuous ∨ t = TenseAspect.present_continuous then some "ti"
  else if t = TenseAspect.present_perfect then some "pü"
  else if t = TenseAspect.present_simple then some "dü"
  else if t = TenseAspect.future_simple then some "wei"
  else none

/-- The `Pronoun` feature bundle. -/
structure Pronoun where
  person : Person
  plurality : Plurality
  proximity : Proximity
  inclusivity : Inclusivity
  reflexive : Bool
deriving DecidableEq, Fintype

/-- `Pronoun.get_subject_pronoun`: nested if/elif chains on person,
plurality, inclusivity, proximity; every fallthrough reaches the trailing
`raise ValueError`, modelled by `none`. -/
def Pronoun.get_subject_pronoun (p : Pronoun) : Option String :=
  if p.person = Person.first then
    if p.plurality = Plurality.singular then some "nüü"
    else if p.plurality = Plurality.dual then some "taa"
    else if p.plurality = Plurality.plural then
      if p.inclusivity = Inclusivity.inclusive then some "taagwa" else some "nüügwa"
    else none
  else if p.person = Person.second then
    if p.plurality = Plurality.singular then some "üü" else some "üügwa"
  else if p.person = Person.third then
    if p.plurality = Plurality.singular then
      if p.proximity = Proximity.proximal then some "mahu" else some "uhu"
    else
      if p.proximity = Proximity.proximal then some "mahuw̃a" else some "uhuw̃a"
  else none

/-- `Pronoun.get_object_pronoun`: as above; for third person the
`reflexive` check comes before the plurality/proximity branching. -/
def Pronoun.get_object_pronoun (p : Pronoun) : Option String :=
  if p.person = Person.first then
    if p.plurality = Plurality.singular then some "i"
    else if p.plurality = Plurality.dual then some "ta"
    else if p.plurality = Plurality.plural then
      if p.inclusivity = Inclusivity.inclusive then some "tei" else some "ni"
    else none
  else if p.person = Person.second then
    if p.plurality = Plurality.singular then some "ü" else some "üi"
  else if p.person = Person.third then
    if p.reflexive then some "na"
    else if p.plurality = Plurality.singular then
      if p.proximity = Proximity.proximal then some "a" else some "u"
    else
      if p.proximity = Proximity.proximal then some "ai" else some "ui"
  else none

/-- A verb: lemma plus tense-aspect. -/
structure Verb where
  lemma_ : String
  tense_aspect : TenseAspect
deriving DecidableEq

/-- `Verb.validate_lemma`: the pydantic field validator shared by the base
class and (by inheritance) both subclasses.  It raises exactly when the
lemma is in neither verb lookup. -/
def Verb.validate_lemma (v : String) : Option String :=
  if TRANSITIVE_VERB_LOOKUP v = none ∧ INTRANSITIVE_VERB_LOOKUP v = none then none
  else some v

/-- Constructing a `TransitiveVerb(lemma, tense_aspect)`.  The subclass
overrides only the json-schema metadata of the `lemma` field; the
inherited `validate_lemma` is the sole runtime check, so validation
succeeds for any lemma in either verb collection. -/
def mkTransitiveVerb (l : String) (ta : TenseAspect) : Option Verb :=
  (Verb.validate_lemma l).map (fun v => ⟨v, ta⟩)

/-- Constructing an `IntransitiveVerb(lemma, tense_aspect)`: same inherited
runtime validation as `mkTransitiveVerb`. -/
def mkIntransitiveVerb (l : String) (ta : TenseAspect) : Option Verb :=
  (Verb.validate_lemma l).map (fun v => ⟨v, ta⟩)

/-- A noun feature bundle (`SubjectNoun` and `ObjectNoun` add no fields). -/
structure Noun where
  head : String
  possessive_determiner : Option Pronoun := none
  proximity : Proximity
  plurality : Plurality
deriving DecidableEq

/-- `ObjectNoun.get_matching_pronoun_prefix` (source name): the
object-agreement form obtained from a transient third-person pronoun
built from the noun's plurality and proximity. -/
def Noun.get_matching_pronoun (n : Noun) : Option String :=
  Pronoun.get_object_pronoun
    ⟨Person.third, n.plurality, n.proximity, Inclusivity.exclusive, false⟩

/-- The `Union[SubjectNoun, Pronoun]` / `Union[ObjectNoun, Pronoun]` field
type of the sentence models. -/
inductive NounOrPronoun
  | noun (n : Noun)
  | pron (p : Pronoun)
deriving DecidableEq

/-- Subject rendering, identical inline code in both `__str__` methods
(lines 246-256 and 374-383): subject pronoun form for a `Pronoun`, else
noun target stem, hyphen, subject suffix. -/
def render_subject (s : NounOrPronoun) : Option String :=
  match s with
  | NounOrPronoun.pron p => p.get_subject_pronoun
  | NounOrPronoun.noun n =>
    (get_noun_target n.head).map
      (fun target_word => target_word ++ "-" ++ n.proximity.get_subject_suffix)

/-- The object-agreement resolution of `SubjectVerbObjectSentence.__str__`
lines 355-359 (source variable `object_pronoun_prefix`). -/
def render_object_agreement (o : NounOrPronoun) : Option String :=
  match o with
  | NounOrPronoun.pron p => p.get_object_pronoun
  | NounOrPronoun.noun n => n.get_matching_pronoun

/-- The object-noun rendering of `SubjectVerbObjectSentence.__str__` lines
367-372: target stem, hyphen, object suffix chosen by proximity and by
whether the *target* stem ends in a glottal stop. -/
def render_object_noun (n : Noun) : Option String :=
  (get_noun_target n.head).map
    (fun target_word =>
      target_word ++ "-" ++ n.proximity.get_object_suffix (target_word.endsWith "'"))

/-- `SubjectVerbSentence`: subject plus verb. -/
structure SubjectVerbSentence where
  subject : NounOrPronoun
  verb : Verb
deriving DecidableEq

/-- `SubjectVerbSentence.__str__`: subject, space, verb stem from the
combined verb view, hyphen, tense-aspect suffix. -/
def SubjectVerbSentence.render (s : SubjectVerbSentence) : Option String :=
  match render_subject s.subject with
  | none => none
  | some subject_str =>
    match get_verb_target s.verb.lemma_ with
    | none => none
    | some verb_stem =>
      match TenseAspect.get_suffix s.verb.tense_aspect with
      | none => none
      | some verb_suffix =>
        some (subject_str ++ " " ++ (verb_stem ++ "-" ++ verb_suffix))

/-- `SubjectVerbObjectSentence`: subject, transitive verb, object.  The
`object` field is required, so the `self.object is not None` test in
`__str__` is always true and the transitive lookup is always taken. -/
structure SubjectVerbObjectSentence where
  subject : NounOrPronoun
  verb : Verb
  object : NounOrPronoun
deriving DecidableEq

/-- `SubjectVerbObjectSentence.__str__`, in source evaluation order:
object-agreement, transitive stem lookup, tense suffix, lenis mutation,
verb assembly, object-noun rendering, subject rendering, final word
order (verb-subject for a pronoun object, subject-object-verb for a
noun object). -/
def SubjectVerbObjectSentence.render (s : SubjectVerbObjectSentence) : Option String :=
  match render_object_agreement s.object with
  | none => none
  | some agr =>
    match get_transitive_verb_target s.verb.lemma_ with
    | none => none
    | some verb_stem =>
      match TenseAspect.get_suffix s.verb.tense_aspect with
      | none => none
      | some verb_suffix =>
        match to_lenis verb_stem with
        | none => none
        | some mstem =>
          let verb_str := agr ++ "-" ++ mstem ++ "-" ++ verb_suffix
          match s.object with
          | NounOrPronoun.noun n =>
            match render_object_noun n with
            | none => none
            | some object_str =>
              match render_subject s.subject with
              | none => none
              | some subject_str =>
                some (subject_str ++ " " ++ object_str ++ " " ++ verb_str)
          | NounOrPronoun.pron _ =>
            match render_subject s.subject with
            | none => none
            | some subject_str =>
              some (verb_str ++ " " ++ subject_str)

/-- Modelled from the spec: `consonant_mutate(word)` as §4.2 words it —
if the first character is one of p, t, k, s, m, replace it with its
paired lenis form b, d, g, z, w̃ respectively and keep the remainder
unchanged; otherwise return the word unchanged.  For refinement
comparison with the source's `to_lenis`. -/
def consonant_mutate_spec (word : String) : String :=
  match word.data with
  | [] => word
  | c :: rest =>
    if c = 'p' then "b" ++ String.mk rest
    else if c = 't' then "d" ++ String.mk rest
    else if c = 'k' then "g" ++ String.mk rest
    else if c = 's' then "z" ++ String.mk rest
    else if c = 'm' then "w̃" ++ String.mk rest
    else word

/-- Key membership characterizes lookup success in an association list. -/
theorem lookup_isSome_iff (a : String) (ps : List (String × String)) :
    (ps.lookup a).isSome ↔ a ∈ ps.map Prod.fst := by
  induction ps with
  | nil => simp [List.lookup]
  | cons hd tl ih =>
    obtain ⟨k, v⟩ := hd
    by_cases h : a = k
    · subst h
      simp [List.lookup]
    · have hb : (a == k) = false := beq_eq_false_iff_ne.mpr h
      simp [List.lookup, hb, ih, h]

/-- Lookup failure characterized by key absence. -/
theorem lookup_eq_none_iff (a : String) (ps : List (String × String)) :
    ps.lookup a = none ↔ a ∉ ps.map Prod.fst := by
  rw [← Option.not_isSome_iff_eq_none, lookup_isSome_iff]

/-- A successful lookup returns a value actually paired with the key. -/
theorem lookup_mem {a b : String} {ps : List (String × String)}
    (h : ps.lookup a = some b) : (a, b) ∈ ps := by
  induction ps with
  | nil => simp [List.lookup] at h
  | cons hd tl ih =>
    obtain ⟨k, v⟩ := hd
    by_cases hk : a = k
    · subst hk
      simp [List.lookup] at h
      subst h
      exact List.mem_cons_self _ _
    · have hb : (a == k) = false := beq_eq_false_iff_ne.mpr hk
      simp [List.lookup, hb] at h
      exact List.mem_cons_of_mem _ (ih h)

/-- Length of appending a string to a packed character list. -/
theorem length_append_mk (l : String) (rest : List Char) :
    (l ++ String.mk rest).length = l.data.length + rest.length := by
  show (l.data ++ rest).length = l.data.length + rest.length
  exact List.length_append _ _

/-- Unfolding `to_lenis` on a non-empty word: the first character is
replaced by its lenis mapping when one exists, else kept. -/
theorem to_lenis_cons (c : Char) (rest : List Char) :
    to_lenis (String.mk (c :: rest)) =
      some ((LENIS_MAP c).getD (String.mk [c]) ++ String.mk rest) := by
  cases h : LENIS_MAP c with
  | some l => simp [to_lenis, h]
  | none =>
    simp [to_lenis, h]
    rfl

/-- C1: For every well-formed transitive clause whose component lookups
succeed, the verb is rendered as object-agreement, hyphen, lenis-mutated
transitive stem, hyphen, tense-aspect suffix; the agreement is the object
pronoun form, or for a noun object the third-person object form built
from the noun's plurality and proximity; a pronoun object yields
verb-space-subject order and a noun object yields
subject-space-object-space-verb order.  The worm/hear/third-pronoun
scenario renders "u-naka-wei wo'abi-uu". -/
theorem C1_transitive_render :
    (∀ (s : SubjectVerbObjectSentence) (agr stem sfx mstem sstr : String),
      render_object_agreement s.object = some agr →
      get_transitive_verb_target s.verb.lemma_ = some stem →
      TenseAspect.get_suffix s.verb.tense_aspect = some sfx →
      to_lenis stem = some mstem →
      render_subject s.subject = some sstr →
      (∀ p : Pronoun, s.object = NounOrPronoun.pron p →
        s.render = some ((agr ++ "-" ++ mstem ++ "-" ++ sfx) ++ " " ++ sstr)) ∧
      (∀ (n : Noun) (ostr : String), s.object = NounOrPronoun.noun n →
        render_object_noun n = some ostr →
        s.render = some (sstr ++ " " ++ ostr ++ " " ++ (agr ++ "-" ++ mstem ++ "-" ++ sfx)))) ∧
    (∀ p : Pronoun,
      render_object_agreement (NounOrPronoun.pron p) = p.get_object_pronoun) ∧
    (∀ n : Noun,
      render_object_agreement (NounOrPronoun.noun n) =
        Pronoun.get_object_pronoun
          ⟨Person.third, n.plurality, n.proximity, Inclusivity.exclusive, false⟩) ∧
    SubjectVerbObjectSentence.render
      ⟨NounOrPronoun.noun ⟨"worm", none, Proximity.distal, Plurality.singular⟩,
       ⟨"hear", TenseAspect.future_simple⟩,
       NounOrPronoun.pron
         ⟨Person.third, Plurality.singular, Proximity.distal, Inclusivity.exclusive, false⟩⟩
      = some "u-naka-wei wo'abi-uu" := by
  refine ⟨?_, fun p => rfl, fun n => rfl, by decide⟩
  intro s agr stem sfx mstem sstr h1 h2 h3 h4 h5
  obtain ⟨sub, vrb, obj⟩ := s
  constructor
  · intro p hp
    subst hp
    simp [SubjectVerbObjectSentence.render, h1, h2, h3, h4, h5] at *
  · intro n ostr hn ho
    subst hn
    simp [SubjectVerbObjectSentence.render, h1, h2, h3, h4, h5, ho] at *

/-- C1 witness: the general rendering shape applied to a concrete
pronoun-subject, pronoun-object clause (I saw you). -/
theorem C1_transitive_render_witness :
    SubjectVerbObjectSentence.render
      ⟨NounOrPronoun.pron
         ⟨Person.first, Plurality.singular, Proximity.proximal, Inclusivity.exclusive, false⟩,
       ⟨"see", TenseAspect.past_simple⟩,
       NounOrPronoun.pron
         ⟨Person.second, Plurality.singular, Proximity.proximal, Inclusivity.exclusive, false⟩⟩
      = some (("ü" ++ "-" ++ "buni" ++ "-" ++ "ku") ++ " " ++ "nüü") :=
  ((C1_transitive_render.1
      ⟨NounOrPronoun.pron
         ⟨Person.first, Plurality.singular, Proximity.proximal, Inclusivity.exclusive, false⟩,
       ⟨"see", TenseAspect.past_simple⟩,
       NounOrPronoun.pron
         ⟨Person.second, Plurality.singular, Proximity.proximal, Inclusivity.exclusive, false⟩⟩
      "ü" "puni" "ku" "buni" "nüü"
      (by decide) (by decide) (by decide) (by decide) (by decide)).1
    ⟨Person.second, Plurality.singular, Proximity.proximal, Inclusivity.exclusive, false⟩ rfl)

/-- C2: For every intransitive clause whose component lookups succeed, the
output is subject, space, verb, where the subject is the subject-pronoun
form for a pronoun and noun-stem, hyphen, subject suffix for a noun, and
the verb is the combined-view verb stem, hyphen, tense-aspect suffix.
The two end-to-end scenarios render "nüü üwi-dü" and
"isha'-uu poyoha-dü". -/
theorem C2_intransitive_render :
    (∀ (s : SubjectVerbSentence) (sstr stem sfx : String),
      render_subject s.subject = some sstr →
      get_verb_target s.verb.lemma_ = some stem →
      TenseAspect.get_suffix s.verb.tense_aspect = some sfx →
      s.render = some (sstr ++ " " ++ (stem ++ "-" ++ sfx))) ∧
    (∀ p : Pronoun,
      render_subject (NounOrPronoun.pron p) = p.get_subject_pronoun) ∧
    (∀ (n : Noun) (t : String), get_noun_target n.head = some t →
      render_subject (NounOrPronoun.noun n) =
        some (t ++ "-" ++ n.proximity.get_subject_suffix)) ∧
    SubjectVerbSentence.render
      ⟨NounOrPronoun.pron
         ⟨Person.first, Plurality.singular, Proximity.proximal, Inclusivity.exclusive, false⟩,
       ⟨"sleep", TenseAspect.present_simple⟩⟩
      = some "nüü üwi-dü" ∧
    SubjectVerbSentence.render
      ⟨NounOrPronoun.noun ⟨"coyote", none, Proximity.distal, Plurality.singular⟩,
       ⟨"run", TenseAspect.present_simple⟩⟩
      = some "isha'-uu poyoha-dü" := by
  refine ⟨?_, fun p => rfl, ?_, by decide, by decide⟩
  · intro s sstr stem sfx h1 h2 h3
    obtain ⟨sub, vrb⟩ := s
    simp [SubjectVerbSentence.render, h1, h2, h3] at *
  · intro n t h
    simp [render_subject, h]

/-- C2 witness: the general shape applied to a concrete noun-subject
clause (the mountain sat). -/
theorem C2_intransitive_render_witness :
    SubjectVerbSentence.render
      ⟨NounOrPronoun.noun ⟨"mountain", none, Proximity.proximal, Plurality.singular⟩,
       ⟨"sit", TenseAspect.past_simple⟩⟩
      = some ("toyabi-ii" ++ " " ++ ("katü" ++ "-" ++ "ku")) :=
  C2_intransitive_render.1
    ⟨NounOrPronoun.noun ⟨"mountain", none, Proximity.proximal, Plurality.singular⟩,
     ⟨"sit", TenseAspect.past_simple⟩⟩
    "toyabi-ii" "katü" "ku" (by decide) (by decide) (by decide)

/-- C3: The object suffix is "eika" for proximal with a glottal-final
stem, "neika" for proximal without, "uka" for distal with, "noka" for
distal without, and the glottal test is evaluated on the rendered target
stem obtained from the vocabulary lookup. -/
theorem C3_object_suffix :
    Proximity.proximal.get_object_suffix true = "eika" ∧
    Proximity.proximal.get_object_suffix false = "neika" ∧
    Proximity.distal.get_object_suffix true = "uka" ∧
    Proximity.distal.get_object_suffix false = "noka" ∧
    (∀ (n : Noun) (t : String), get_noun_target n.head = some t →
      render_object_noun n =
        some (t ++ "-" ++ n.proximity.get_object_suffix (t.endsWith "'"))) := by
  refine ⟨rfl, rfl, rfl, rfl, ?_⟩
  intro n t h
  simp [render_object_noun, h]

/-- C3 witness: the coyote noun, whose English lemma has no glottal stop
but whose target stem "isha'" does, takes the glottal proximal suffix. -/
theorem C3_object_suffix_witness :
    render_object_noun ⟨"coyote", none, Proximity.proximal, Plurality.singular⟩ =
      some ("isha'" ++ "-" ++ Proximity.proximal.get_object_suffix (String.endsWith "isha'" "'")) :=
  C3_object_suffix.2.2.2.2
    ⟨"coyote", none, Proximity.proximal, Plurality.singular⟩ "isha'" (by decide)

/-- C4: Every feature-model mapping function is total over its enumerated
domain: both pronoun form functions return a value for every pronoun in
the full cross-product, and the tense-aspect suffix function returns a
value for every tense-aspect; no trailing raise is reachable. -/
theorem C4_feature_totality :
    (∀ p : Pronoun, (p.get_subject_pronoun).isSome ∧ (p.get_object_pronoun).isSome) ∧
    (∀ t : TenseAspect, (t.get_suffix).isSome) := by decide

/-- C5 counterexample: an IntransitiveVerb whose lemma "hear" exists only
in the transitive collection is accepted by construction, contradicting
the claim that construction fails exactly when the lemma is absent from
the specific collection for that verb class. -/
theorem C5_counterexample :
    (mkIntransitiveVerb "hear" TenseAspect.past_simple).isSome = true ∧
    INTRANSITIVE_VERB_LOOKUP "hear" = none ∧
    (TRANSITIVE_VERB_LOOKUP "hear").isSome = true := by decide

/-- C5 amended: both verb subclasses share the inherited lemma validator,
so constructing either a TransitiveVerb or an IntransitiveVerb succeeds
exactly when the lemma is present in at least one of the two verb
collections; the per-class restriction exists only in JSON-schema
metadata and is not enforced at construction. -/
theorem C5_verb_validation :
    ∀ (l : String) (ta : TenseAspect),
      ((mkTransitiveVerb l ta).isSome ↔
        ((TRANSITIVE_VERB_LOOKUP l).isSome ∨ (INTRANSITIVE_VERB_LOOKUP l).isSome)) ∧
      ((mkIntransitiveVerb l ta).isSome ↔
        ((TRANSITIVE_VERB_LOOKUP l).isSome ∨ (INTRANSITIVE_VERB_LOOKUP l).isSome)) := by
  intro l ta
  cases h1 : TRANSITIVE_VERB_LOOKUP l <;> cases h2 : INTRANSITIVE_VERB_LOOKUP l <;>
    simp [mkTransitiveVerb, mkIntransitiveVerb, Verb.validate_lemma, h1, h2]

/-- C6: For every third-person reflexive pronoun, the object form is the
fixed "na" regardless of plurality, proximity and inclusivity: the
reflexivity check precedes the plurality/proximity branching. -/
theorem C6_reflexive_object :
    ∀ (pl : Plurality) (px : Proximity) (i : Inclusivity),
      Pronoun.get_object_pronoun ⟨Person.third, pl, px, i, true⟩ = some "na" := by
  decide

/-- C7: On every non-empty word, `to_lenis` agrees with the spec's
consonant mutation: the first character is replaced by its paired lenis
form exactly when it is one of p, t, k, s, m, the remainder is kept, and
otherwise the word is unchanged; in particular tüka maps to düka, puni
to buni, and yadohi to itself. -/
theorem C7_consonant_mutate :
    (∀ w : String, w ≠ "" → to_lenis w = some (consonant_mutate_spec w)) ∧
    to_lenis "tüka" = some "düka" ∧
    to_lenis "puni" = some "buni" ∧
    to_lenis "yadohi" = some "yadohi" := by
  refine ⟨?_, by decide, by decide, by decide⟩
  intro w hw
  obtain ⟨data⟩ := w
  cases data with
  | nil => exact absurd rfl hw
  | cons c rest =>
    rw [to_lenis_cons]
    simp only [consonant_mutate_spec, LENIS_MAP]
    split_ifs <;> simp_all [String.ext_iff]

/-- C7 witness: the mutation-spec agreement at the concrete stem "naka". -/
theorem C7_consonant_mutate_witness :
    to_lenis "naka" = some (consonant_mutate_spec "naka") :=
  C7_consonant_mutate.1 "naka" (by decide)

/-- C8: Looking up an absent lemma fails and lookup never substitutes a
value: the noun lookup fails exactly when the lemma keys no noun entry,
the verb lookup fails exactly when the lemma keys neither verb
collection, and every successful lookup returns a stem actually paired
with the lemma in the vocabulary tables. -/
theorem C8_lookup_failure :
    (∀ l : String, get_noun_target l = none ↔ l ∉ NOUNS.map Prod.fst) ∧
    (∀ l : String, get_verb_target l = none ↔
      (l ∉ TRANSITIVE_VERBS.map Prod.fst ∧ l ∉ INTRANSITIVE_VERBS.map Prod.fst)) ∧
    (∀ l s : String, get_noun_target l = some s → (l, s) ∈ NOUNS) ∧
    (∀ l s : String, get_verb_target l = some s →
      (l, s) ∈ TRANSITIVE_VERBS ∨ (l, s) ∈ INTRANSITIVE_VERBS) := by
  refine ⟨?_, ?_, ?_, ?_⟩
  · intro l
    exact lookup_eq_none_iff l NOUNS
  · intro l
    unfold get_verb_target TRANSITIVE_VERB_LOOKUP INTRANSITIVE_VERB_LOOKUP
    cases h1 : TRANSITIVE_VERBS.lookup l with
    | some t =>
      have hmem : l ∈ TRANSITIVE_VERBS.map Prod.fst :=
        (lookup_isSome_iff l _).mp (by rw [h1]; rfl)
      simp [hmem]
    | none =>
      have hnmem : l ∉ TRANSITIVE_VERBS.map Prod.fst :=
        (lookup_eq_none_iff l _).mp h1
      rw [lookup_eq_none_iff]
      exact ⟨fun h => ⟨hnmem, h⟩, fun h => h.2⟩
  · intro l s h
    exact lookup_mem h
  · intro l s h
    unfold get_verb_target TRANSITIVE_VERB_LOOKUP INTRANSITIVE_VERB_LOOKUP at h
    cases h1 : TRANSITIVE_VERBS.lookup l with
    | some t =>
      rw [h1] at h
      injection h with h2
      subst h2
      exact Or.inl (lookup_mem h1)
    | none =>
      rw [h1] at h
      exact Or.inr (lookup_mem h)

/-- C8 witness: successful lookups at "coyote" and "sleep" return stems
paired with those lemmas in the vocabulary tables. -/
theorem C8_lookup_failure_witness :
    ("coyote", "isha'") ∈ NOUNS ∧
    (("sleep", "üwi") ∈ TRANSITIVE_VERBS ∨ ("sleep", "üwi") ∈ INTRANSITIVE_VERBS) :=
  ⟨C8_lookup_failure.2.2.1 "coyote" "isha'" (by decide),
   C8_lookup_failure.2.2.2 "sleep" "üwi" (by decide)⟩

/-- C10 counterexample: `to_lenis` does not preserve length on every
non-empty word: "mia" (three characters) maps to "w̃ia" (four
characters, the lenis form of m being w plus a combining tilde). -/
theorem C10_counterexample :
    to_lenis "mia" = some "w̃ia" ∧
    ("w̃ia" : String).length = 4 ∧ ("mia" : String).length = 3 := by decide

/-- C10 amended: `to_lenis` is not total on strings: it fails on the
empty string; on every non-empty word it returns a string whose length
equals the input length, plus one when the first character is m (whose
two-character lenis replacement lengthens the word). -/
theorem C10_to_lenis_partial :
    to_lenis "" = none ∧
    (∀ (w out : String), to_lenis w = some out →
      out.length = w.length + (if w.data.head? = some 'm' then 1 else 0)) := by
  refine ⟨rfl, ?_⟩
  intro w out h
  obtain ⟨data⟩ := w
  cases data with
  | nil => simp [to_lenis] at h
  | cons c rest =>
    rw [to_lenis_cons] at h
    injection h with h
    subst h
    rw [length_append_mk]
    cases hL : LENIS_MAP c with
    | none =>
      have hcm : c ≠ 'm' := by
        intro hc
        subst hc
        simp [LENIS_MAP] at hL
      simp [hL, String.length, hcm]
      omega
    | some l =>
      have hlen : l.data.length = if c = 'm' then 2 else 1 := by
        unfold LENIS_MAP at hL
        split_ifs at hL with h1 h2 h3 h4 h5 <;> injection hL with hL <;> subst hL <;>
          simp_all
      rw [Option.getD_some, hlen]
      simp only [String.length, List.head?, List.length_cons]
      by_cases hm : c = 'm'
      · simp [hm]
        omega
      · simp [hm]
        omega

/-- C10 witness: the length law applied at the concrete word "mia". -/
theorem C10_to_lenis_partial_witness :
    ("w̃ia" : String).length =
      ("mia" : String).length +
        (if ("mia" : String).data.head? = some 'm' then 1 else 0) :=
  C10_to_lenis_partial.2 "mia" "w̃ia" (by decide)

end Yaduha
